import Mathlib

/-!
Shallow embedding of the core of `pyth-observer`: the check framework
(`pyth_observer/check/price_feed.py`, `pyth_observer/check/publisher.py`),
the stall detector (`pyth_observer/check/stall_detection.py`), the alert
dispatch state machine (`pyth_observer/dispatch.py`) and the Zenduty retry
loop (`pyth_observer/zenduty.py`).

Python `int` values are modelled as `Int`, `float` prices/thresholds as `Rat`,
timestamps as `Int` (unix seconds).  The external market-calendar collaborator
(`is_market_open` / `schedule.is_market_open`) is passed in as a boolean
argument, and the wall clock (`time.time()` / `datetime.now()`) as an explicit
timestamp argument, exactly where the Python code consults them.
-/

namespace PythObserver

/-- `PythPriceStatus` from `pythclient` (only the distinction used by the
checks matters: `trading` vs everything else). -/
inductive PythPriceStatus where
  | unknown
  | trading
  | halted
  | auction
deriving DecidableEq

/-- `PriceUpdate` from `pyth_observer/check/publisher.py`:
a single price with its timestamp (epoch seconds). -/
structure PriceUpdate where
  timestamp : Int
  price : Rat
deriving DecidableEq

/-- `StallDetectionResult` from `pyth_observer/check/stall_detection.py`. -/
structure StallDetectionResult where
  is_stalled : Bool
  stall_type : Option String
  base_price : Option Rat
  noise_magnitude : Option Rat
  duration : Rat
  confidence : Rat
deriving DecidableEq

/-- `StallDetectionResult.no_stall()`. -/
def StallDetectionResult.no_stall : StallDetectionResult :=
  { is_stalled := false
    stall_type := none
    base_price := none
    noise_magnitude := none
    duration := 0
    confidence := 0 }

/-- The `StallDetector` constructor arguments. -/
structure StallDetector where
  stall_time_limit : Rat
  noise_threshold : Rat
  min_noise_samples : Nat
deriving DecidableEq

/-- `updates[-2:]` for a list of length at least two: the two most recent
updates (in order), `none` when fewer than two updates exist. -/
def lastTwo (l : List PriceUpdate) : Option (PriceUpdate × PriceUpdate) :=
  match l.reverse with
  | u1 :: u0 :: _ => some (u0, u1)
  | _ => none

/-- `np.median` over the given list: sort, take the middle element for odd
length, the mean of the two middle elements for even length.  (Only ever
applied to non-empty lists by `analyze_updates`.) -/
def np_median (l : List Rat) : Rat :=
  let s := l.insertionSort (· ≤ ·)
  let n := l.length
  if n % 2 = 1 then s.getD (n / 2) 0
  else (s.getD (n / 2 - 1) 0 + s.getD (n / 2) 0) / 2

/-- `np.max` over a list (maximum of a non-empty list; 0 for the empty list,
which `analyze_updates` never produces). -/
def np_max (l : List Rat) : Rat :=
  match l with
  | [] => 0
  | x :: xs => xs.foldl max x

/-- `base_price` in `analyze_updates` (stall_detection.py line 117):
`np.median` of all prices in the window. -/
def window_base_price (updates : List PriceUpdate) : Rat :=
  np_median (updates.map (·.price))

/-- `max_relative_deviation` in `analyze_updates` (stall_detection.py lines
123-124): the largest of the relative deviations
`np.abs(prices - base_price) / abs(base_price)`. -/
def window_max_relative_deviation (updates : List PriceUpdate) : Rat :=
  np_max ((updates.map (·.price)).map
    (fun p => |p - window_base_price updates| / |window_base_price updates|))

/-- `StallDetector.analyze_updates` from
`pyth_observer/check/stall_detection.py` (lines 81-149), translated
clause by clause:

* fewer than 2 samples ⇒ no stall;
* exact-stall branch on the two most recent updates: gap `≤ stall_time_limit`
  ⇒ no stall; else equal prices ⇒ exact stall with confidence 1;
* noisy-stall branch: median base price, zero base ⇒ no stall, fewer than
  `min_noise_samples` updates ⇒ no stall, maximal relative deviation within
  `noise_threshold` ⇒ noisy stall, otherwise not stalled. -/
def StallDetector.analyze_updates (d : StallDetector) (updates : List PriceUpdate) :
    StallDetectionResult :=
  match lastTwo updates with
  | none => StallDetectionResult.no_stall
  | some (u0, u1) =>
    let duration : Rat := ((u1.timestamp - u0.timestamp : Int) : Rat)
    if duration ≤ d.stall_time_limit then
      StallDetectionResult.no_stall
    else if u1.price = u0.price then
      { is_stalled := true
        stall_type := some "exact"
        base_price := some u1.price
        noise_magnitude := some 0
        duration := duration
        confidence := 1 }
    else
      let base_price := window_base_price updates
      if base_price = 0 then
        StallDetectionResult.no_stall
      else
        let max_relative_deviation := window_max_relative_deviation updates
        if updates.length < d.min_noise_samples then
          StallDetectionResult.no_stall
        else if max_relative_deviation ≤ d.noise_threshold then
          { is_stalled := true
            stall_type := some "noisy"
            base_price := some base_price
            noise_magnitude := some (max_relative_deviation * base_price)
            duration := duration
            confidence := 1 - max_relative_deviation / d.noise_threshold }
        else
          { is_stalled := false
            stall_type := none
            base_price := some base_price
            noise_magnitude := some (max_relative_deviation * base_price)
            duration := duration
            confidence := 0 }

/-- `CrosschainPrice` from `pyth_observer/crosschain.py`. -/
structure CrosschainPrice where
  price : Rat
  conf : Rat
  publish_time : Int
  snapshot_time : Int
deriving DecidableEq

/-- `PriceFeedState` from `pyth_observer/check/price_feed.py`
(the opaque `SolanaPublicKey` is modelled as a string). -/
structure PriceFeedState where
  symbol : String
  asset_type : String
  public_key : String
  status : PythPriceStatus
  latest_block_slot : Int
  latest_trading_slot : Int
  price_aggregate : Rat
  confidence_interval_aggregate : Rat
  coingecko_price : Option Rat
  coingecko_update : Option Int
  crosschain_price : Option CrosschainPrice
deriving DecidableEq

/-- Config of `PriceFeedOfflineCheck`. -/
structure PriceFeedOfflineCheckConfig where
  max_slot_distance : Int
  abandoned_slot_distance : Int
deriving DecidableEq

/-- `PriceFeedOfflineCheck.run` from `pyth_observer/check/price_feed.py`
(lines 57-80).  `market_open` is the result of the external
`is_market_open(asset_type, now)` call. -/
def PriceFeedOfflineCheck.run (cfg : PriceFeedOfflineCheckConfig)
    (state : PriceFeedState) (market_open : Bool) : Bool :=
  if !market_open then true
  else
    let distance := |state.latest_block_slot - state.latest_trading_slot|
    if distance < cfg.max_slot_distance then true
    else if cfg.abandoned_slot_distance < distance then true
    else false

/-- Config of `PriceFeedCrossChainOnlineCheck`. -/
structure PriceFeedCrossChainOnlineCheckConfig where
  max_staleness : Int
deriving DecidableEq

/-- `PriceFeedCrossChainOnlineCheck.run` from
`pyth_observer/check/price_feed.py` (lines 174-206): skip unless trading and
market open; a missing cross-chain record FAILS the check
("Price should exist, it fails otherwise"); zero publish time skips;
otherwise pass exactly when `snapshot_time - publish_time < max_staleness`. -/
def PriceFeedCrossChainOnlineCheck.run (cfg : PriceFeedCrossChainOnlineCheckConfig)
    (state : PriceFeedState) (market_open : Bool) : Bool :=
  if state.status ≠ PythPriceStatus.trading then true
  else if !market_open then true
  else
    match state.crosschain_price with
    | none => false
    | some cc =>
      if cc.publish_time = 0 then true
      else
        let staleness := cc.snapshot_time - cc.publish_time
        if staleness < cfg.max_staleness then true
        else false

/-- `PUBLISHER_EXCLUSION_DISTANCE` from `pyth_observer/check/publisher.py`. -/
def PUBLISHER_EXCLUSION_DISTANCE : Int := 25

/-- `PublisherState` from `pyth_observer/check/publisher.py` (the opaque
`MarketSchedule` collaborator is not part of the value; its
`is_market_open(now)` answer is passed to the checks that consult it). -/
structure PublisherState where
  publisher_name : String
  symbol : String
  asset_type : String
  public_key : String
  status : PythPriceStatus
  aggregate_status : PythPriceStatus
  slot : Int
  aggregate_slot : Int
  latest_block_slot : Int
  price : Rat
  price_aggregate : Rat
  confidence_interval : Rat
  confidence_interval_aggregate : Rat
deriving DecidableEq

/-- Config of `PublisherWithinAggregateConfidenceCheck`. -/
structure PublisherWithinAggregateConfidenceCheckConfig where
  max_interval_distance : Rat
deriving DecidableEq

/-- `PublisherWithinAggregateConfidenceCheck.run` from
`pyth_observer/check/publisher.py` (lines 78-109). -/
def PublisherWithinAggregateConfidenceCheck.run
    (cfg : PublisherWithinAggregateConfidenceCheckConfig)
    (state : PublisherState) : Bool :=
  if state.status ≠ PythPriceStatus.trading then true
  else if state.aggregate_status ≠ PythPriceStatus.trading then true
  else if state.confidence_interval = 0 then true
  else if PUBLISHER_EXCLUSION_DISTANCE < |state.slot - state.aggregate_slot| then true
  else
    let diff := state.price - state.price_aggregate
    if state.confidence_interval_aggregate = 0 then true
    else
      let intervals_away := |diff / state.confidence_interval_aggregate|
      if intervals_away < cfg.max_interval_distance then true
      else false

/-- Config of `PublisherStalledCheck`. -/
structure PublisherStalledCheckConfig where
  stall_time_limit : Int
  abandoned_time_limit : Int
  max_slot_distance : Int
  noise_threshold : Rat
  min_noise_samples : Nat
deriving DecidableEq

/-- `PublisherStalledCheck.run` from `pyth_observer/check/publisher.py`
(lines 291-331).  The guards (market closed, redemption-rate asset,
publisher offline by slot distance) return `some true`.  Past the guards the
Python code calls `self.__detector.analyze_updates(list(updates), cur_update)`
(publisher.py line 322) with TWO positional arguments, while
`StallDetector.analyze_updates` (stall_detection.py line 81) accepts only
ONE (`updates`); CPython raises `TypeError` at that call, which the embedding
renders as `none`.  `cache` is the `PUBLISHER_CACHE` entry for
`(publisher_name, symbol)` and `current_time` is `int(time.time())`; the
cache append performed before the crash does not change the raised outcome. -/
def PublisherStalledCheck.run (cfg : PublisherStalledCheckConfig)
    (state : PublisherState) (market_open : Bool)
    (cache : List PriceUpdate) (current_time : Int) : Option Bool :=
  if !market_open then some true
  else
    let distance := state.latest_block_slot - state.slot
    if state.asset_type = "Crypto Redemption Rate" then some true
    else if cfg.max_slot_distance ≤ distance then some true
    else
      let _is_repeated_price :=
        match cache.getLast? with
        | some u => u.price = state.price
        | none => false
      let _cur_update : PriceUpdate := ⟨current_time, state.price⟩
      none

/-! ## Alert dispatch state machine (`pyth_observer/dispatch.py`) -/

/-- `AlertInfo` from `pyth_observer/dispatch.py`.  The ISO datetime strings
(`window_start`, `last_alert`) are modelled as unix-second timestamps. -/
structure AlertInfo where
  type : String
  window_start : Int
  failures : Nat
  last_window_failures : Option Nat
  sent : Bool
  last_alert : Option Int
deriving DecidableEq

/-- `Dispatch.check_zd_alert_status` (dispatch.py lines 206-217): if five
minutes (300 s) or more have elapsed since `window_start`, roll the window
(new `window_start`, previous `failures` become `last_window_failures`,
counter reset to 0); otherwise leave the record unchanged. -/
def check_zd_alert_status (alert : AlertInfo) (current_time : Int) : AlertInfo :=
  if 300 ≤ current_time - alert.window_start then
    { alert with
        window_start := current_time
        last_window_failures := some alert.failures
        failures := 0 }
  else alert

/-- The new record created in `Dispatch.run` (dispatch.py lines 109-116) when
a check fails and no `AlertInfo` exists for its identifier. -/
def new_alert (check_type : String) (current_time : Int) : AlertInfo :=
  { type := check_type
    window_start := current_time
    failures := 1
    last_window_failures := none
    sent := false
    last_alert := none }

/-- The failure-recording step of `Dispatch.run` (dispatch.py lines 117-120)
for an identifier whose `AlertInfo` already exists: first
`check_zd_alert_status` (window rollover), then `alert["failures"] += 1`. -/
def record_failure (alert : AlertInfo) (current_time : Int) : AlertInfo :=
  let a := check_zd_alert_status alert current_time
  { a with failures := a.failures + 1 }

/-- The per-check-type thresholds read in `process_zenduty_events`
(`check_config.get("alert_threshold", 5)`,
`check_config.get("resolution_threshold", 3)`). -/
structure CheckThresholds where
  alert_threshold : Nat := 5
  resolution_threshold : Nat := 3
deriving DecidableEq

/-- `current_time.minute` of a unix-second timestamp. -/
def zd_minute (t : Int) : Int := (t.ediv 60).emod 60

/-- `last_window_resolved` in `process_zenduty_events` (dispatch.py lines
234-237): the previous window exists and had at most
`resolution_threshold` failures. -/
def last_window_resolved (cfg : CheckThresholds) (info : AlertInfo) : Bool :=
  match info.last_window_failures with
  | some n => decide (n ≤ cfg.resolution_threshold)
  | none => false

/-- `current_window_resolved` in `process_zenduty_events` (dispatch.py lines
239-243): an alert was sent and the current window has at most
`resolution_threshold` failures and fewer than `alert_threshold`. -/
def current_window_resolved (cfg : CheckThresholds) (info : AlertInfo) : Bool :=
  info.sent && decide (info.failures ≤ cfg.resolution_threshold)
    && decide (info.failures < cfg.alert_threshold)

/-- The `resolved` flag in `process_zenduty_events` (dispatch.py line 244). -/
def zd_resolved (cfg : CheckThresholds) (info : AlertInfo) : Bool :=
  last_window_resolved cfg info || current_window_resolved cfg info

/-- The raise guard of `process_zenduty_events` (dispatch.py lines 262-271):
`(failures >= alert_threshold or sent)` (in the `elif` branch `resolved` is
false, so `sent and not resolved` is just `sent`) and the re-alert cadence
(`last_alert` unset, or more than five minutes since the last alert and the
current minute is 0). -/
def zd_should_raise (cfg : CheckThresholds) (info : AlertInfo) (current_time : Int) :
    Bool :=
  (decide (cfg.alert_threshold ≤ info.failures) || info.sent)
    && (match info.last_alert with
        | none => true
        | some la => decide (300 < current_time - la) && decide (zd_minute current_time = 0))

/-- Outcome of processing one open alert inside the
`process_zenduty_events` loop (dispatch.py lines 223-285):
the possibly-mutated record, whether the identifier was appended to
`to_remove`, whether a resolution event send was attempted
(`send_zenduty_alert(identifier, identifier, resolved=True)`), and whether
the alert was raised (delayed events queued for sending). -/
structure ZdEntryOut where
  info : AlertInfo
  removed : Bool
  resolution_send : Bool
  raised : Bool
deriving DecidableEq

/-- One iteration of the `process_zenduty_events` loop for a single record.
`delivery` is the HTTP response status of the resolution send, when the
transport produced a response (`None` models a falsy response).  Removal on
resolution of a `sent` record requires `response and 200 <= response.status
< 300` (dispatch.py line 252); an unsent record is removed without any send
(line 258); raising sets `sent := true` and `last_alert := current_time`
(lines 273-274). -/
def zd_entry (cfg : CheckThresholds) (current_time : Int) (delivery : Option Nat)
    (info : AlertInfo) : ZdEntryOut :=
  let info := check_zd_alert_status info current_time
  if zd_resolved cfg info then
    if info.sent then
      match delivery with
      | some s =>
        if 200 ≤ s ∧ s < 300 then ⟨info, true, true, false⟩
        else ⟨info, false, true, false⟩
      | none => ⟨info, false, true, false⟩
    else ⟨info, true, false, false⟩
  else if zd_should_raise cfg info current_time then
    ⟨{ info with sent := true, last_alert := some current_time }, false, false, true⟩
  else ⟨info, false, false, false⟩

/-- The event types whose notifications are hysteresis-gated
(`["ZendutyEvent", "TelegramEvent"]` in dispatch.py). -/
def hysteresis_event_types : List String := ["ZendutyEvent", "TelegramEvent"]

/-- Result of one whole `process_zenduty_events` pass:
the open-alerts map after removals, the delayed-events map after cleanup
(keyed by `(event_type, identifier)`, the embedding of the string key
`f"{event_type}-{alert_identifier}"`), the identifiers for which a
resolution event was sent, and the delayed-event keys sent on raise. -/
structure ZdPassOut where
  alerts : List (String × AlertInfo)
  events : List (String × String)
  resolution_sends : List String
  raised_sends : List (String × String)
deriving DecidableEq

/-- `Dispatch.process_zenduty_events` (dispatch.py lines 219-304), minus
logging, metrics and the final file write: process every open alert with
`zd_entry`, send the delayed events of raised identifiers that are pending
for an enabled hysteresis event type, then delete the `to_remove` records
and their pending delayed events (only for enabled hysteresis event
types). -/
def process_zenduty_events (cfg_of : String → CheckThresholds)
    (enabled : List String) (current_time : Int) (delivery : String → Option Nat)
    (alerts : List (String × AlertInfo)) (events : List (String × String)) :
    ZdPassOut :=
  let processed : List (String × ZdEntryOut) :=
    alerts.map (fun p => (p.1, zd_entry (cfg_of p.2.type) current_time (delivery p.1) p.2))
  let to_remove : List String := (processed.filter (fun q => q.2.removed)).map (·.1)
  let resolution_sends : List String :=
    (processed.filter (fun q => q.2.resolution_send)).map (·.1)
  let raised : List String := (processed.filter (fun q => q.2.raised)).map (·.1)
  let raised_sends : List (String × String) :=
    events.filter (fun e =>
      decide (e.2 ∈ raised) && decide (e.1 ∈ enabled)
        && decide (e.1 ∈ hysteresis_event_types))
  let alerts1 : List (String × AlertInfo) :=
    (processed.map (fun q => (q.1, q.2.info))).filter (fun p => !decide (p.1 ∈ to_remove))
  let events1 : List (String × String) :=
    events.filter (fun e =>
      !(decide (e.2 ∈ to_remove) && decide (e.1 ∈ enabled)
        && decide (e.1 ∈ hysteresis_event_types)))
  ⟨alerts1, events1, resolution_sends, raised_sends⟩

/-- `dict.get` on the association-list representation of `open_alerts`:
the value at the first matching key, `none` when the key is absent. -/
def alist_get {α : Type} (l : List (String × α)) (id : String) : Option α :=
  match l with
  | [] => none
  | p :: rest => if p.1 = id then some p.2 else alist_get rest id

/-! ## Zenduty retry loop (`pyth_observer/zenduty.py`) -/

/-- What `send_zenduty_alert` did: the status of the response it returned,
the number of POSTs it made, the sleeps (seconds) between attempts, and
whether it gave up after exhausting its retries. -/
structure ZdSendResult where
  status : Nat
  attempts : Nat
  sleeps : List Nat
  exhausted : Bool
deriving DecidableEq

/-- The `while retries < max_retries` loop of `send_zenduty_alert`
(zenduty.py lines 27-53).  `responses k` is the HTTP status of the `k`-th
POST (0-indexed).  A 2xx status or any non-429 status returns at once; a
429 increments `retries` and, while `retries < max_retries` still holds,
sleeps `min(30, 2**retries)` seconds and loops, otherwise returns the 429
response ("after max retries").  `none` models the implicit `None` returned
if the `while` guard fails on entry (impossible from `send_zenduty_alert`,
which starts at `retries = 0` with `max_retries = 30`). -/
def zd_send_loop (responses : Nat → Nat) (max_retries : Nat) (k retries : Nat) :
    Option ZdSendResult :=
  if retries < max_retries then
    if 200 ≤ responses k ∧ responses k < 300 then some ⟨responses k, k + 1, [], false⟩
    else if responses k = 429 then
      if retries + 1 < max_retries then
        match zd_send_loop responses max_retries (k + 1) (retries + 1) with
        | some rest =>
          some ⟨rest.status, rest.attempts, min 30 (2 ^ (retries + 1)) :: rest.sleeps,
            rest.exhausted⟩
        | none => none
      else some ⟨responses k, k + 1, [], true⟩
    else some ⟨responses k, k + 1, [], false⟩
  else none
termination_by max_retries - retries

/-- `send_zenduty_alert` (zenduty.py lines 11-53), modelled over the status
sequence of its POSTs: `max_retries = 30`, starting at `retries = 0`. -/
def send_zenduty_alert (responses : Nat → Nat) : Option ZdSendResult :=
  zd_send_loop responses 30 0 0

/-! ## Theorems -/

/-- C1 counterexample: with the market open, at `distance` equal to
`max_slot_distance` (and likewise at `distance` equal to
`abandoned_slot_distance`) `PriceFeedOfflineCheck.run()` returns FALSE, not
true as the claim states: with `max_slot_distance = 10`,
`abandoned_slot_distance = 100`, a state at distance 10 and a state at
distance 100 both fail the check. -/
theorem priceFeedOfflineCheck_boundary_cex :
    |(110 : Int) - 100| = (10 : Int) ∧
    PriceFeedOfflineCheck.run ⟨10, 100⟩
      ⟨"Crypto.BTC/USD", "Crypto", "k", .trading, 110, 100, 1, 1, none, none, none⟩
      true = false ∧
    |(200 : Int) - 100| = (100 : Int) ∧
    PriceFeedOfflineCheck.run ⟨10, 100⟩
      ⟨"Crypto.BTC/USD", "Crypto", "k", .trading, 200, 100, 1, 1, none, none, none⟩
      true = false := by
  refine ⟨by decide, by decide, by decide, by decide⟩

/-- C1 (amended): with the market open, `PriceFeedOfflineCheck.run()` returns
false exactly when `distance = |latest_block_slot - latest_trading_slot|`
satisfies `max_slot_distance ≤ distance ≤ abandoned_slot_distance`; it
returns true when `distance < max_slot_distance` or
`distance > abandoned_slot_distance` (both boundaries fail). -/
theorem priceFeedOfflineCheck_run_iff (cfg : PriceFeedOfflineCheckConfig)
    (st : PriceFeedState) :
    PriceFeedOfflineCheck.run cfg st true = false ↔
      cfg.max_slot_distance ≤ |st.latest_block_slot - st.latest_trading_slot| ∧
      |st.latest_block_slot - st.latest_trading_slot| ≤ cfg.abandoned_slot_distance := by
  unfold PriceFeedOfflineCheck.run
  split_ifs with h1 h2 h3 <;> simp_all <;> omega

/-- C3: for any update list whose two most recent entries are `u0`, `u1`
(`lastTwo updates = some (u0, u1)` requires at least two updates),
`analyze_updates` reports no stall when the timestamp gap is at most
`stall_time_limit`, and an exact stall with confidence 1 when the gap
exceeds the limit and the two prices are exactly equal. -/
theorem stallDetector_exact_stall (d : StallDetector) (updates : List PriceUpdate)
    (u0 u1 : PriceUpdate) (h : lastTwo updates = some (u0, u1)) :
    (((u1.timestamp - u0.timestamp : Int) : Rat) ≤ d.stall_time_limit →
      d.analyze_updates updates = StallDetectionResult.no_stall) ∧
    (d.stall_time_limit < ((u1.timestamp - u0.timestamp : Int) : Rat) →
      u1.price = u0.price →
      d.analyze_updates updates =
        ⟨true, some "exact", some u1.price, some 0,
          ((u1.timestamp - u0.timestamp : Int) : Rat), 1⟩) := by
  constructor
  · intro hle
    simp only [StallDetector.analyze_updates, h]
    rw [if_pos hle]
  · intro hgt heq
    simp only [StallDetector.analyze_updates, h]
    rw [if_neg (not_le.mpr hgt), if_pos heq]

/-- C3 witness: two identical prices 6 s apart with `stall_time_limit = 5`
yield an exact stall with confidence 1; the same prices 5 s apart yield no
stall. -/
theorem stallDetector_exact_stall_witness :
    (StallDetector.mk 5 (1/10000) 5).analyze_updates [⟨0, 100⟩, ⟨6, 100⟩] =
      ⟨true, some "exact", some 100, some 0, 6, 1⟩ ∧
    (StallDetector.mk 5 (1/10000) 5).analyze_updates [⟨0, 100⟩, ⟨5, 100⟩] =
      StallDetectionResult.no_stall := by
  constructor
  · exact ((stallDetector_exact_stall (StallDetector.mk 5 (1/10000) 5)
      [⟨0, 100⟩, ⟨6, 100⟩] ⟨0, 100⟩ ⟨6, 100⟩ (by decide)).2
      (by norm_num) rfl).trans (by norm_num)
  · exact (stallDetector_exact_stall (StallDetector.mk 5 (1/10000) 5)
      [⟨0, 100⟩, ⟨5, 100⟩] ⟨0, 100⟩ ⟨5, 100⟩ (by decide)).1 (by norm_num)

/-- C5: when a check fails for an identifier whose `AlertInfo` already exists
and whose window has been open for at least five minutes, the dispatcher
rolls the window before incrementing: `last_window_failures` becomes the
pre-rollover `failures` count, and the current cycle's failure is added to
the reset counter, leaving `failures = 1`. -/
theorem record_failure_rolls_window (a : AlertInfo) (t : Int)
    (h : 300 ≤ t - a.window_start) :
    record_failure a t =
      { type := a.type
        window_start := t
        failures := 1
        last_window_failures := some a.failures
        sent := a.sent
        last_alert := a.last_alert } := by
  unfold record_failure check_zd_alert_status
  rw [if_pos h]

/-- C5 witness: a record whose window opened at time 0 with 4 accumulated
failures, hit again at time 300, rolls to `last_window_failures = 4`,
`failures = 1`. -/
theorem record_failure_rolls_window_witness :
    record_failure ⟨"PublisherOfflineCheck", 0, 4, none, false, none⟩ 300 =
      ⟨"PublisherOfflineCheck", 300, 1, some 4, false, none⟩ := by
  exact record_failure_rolls_window ⟨"PublisherOfflineCheck", 0, 4, none, false, none⟩
    300 (by decide)

/-- C10: `PublisherWithinAggregateConfidenceCheck.run()` returns true for
every state whose aggregate confidence interval is zero, so the division
computing `intervals_away` is never reached with a zero divisor. -/
theorem publisherWithinAggregateConfidence_zero_divisor_guard
    (cfg : PublisherWithinAggregateConfidenceCheckConfig) (st : PublisherState)
    (h : st.confidence_interval_aggregate = 0) :
    PublisherWithinAggregateConfidenceCheck.run cfg st = true := by
  unfold PublisherWithinAggregateConfidenceCheck.run
  split_ifs <;> simp_all

/-- C10 witness: a state that is trading on both sides, has nonzero publisher
confidence and zero slot distance (so no other skip applies) but zero
aggregate confidence interval still passes. -/
theorem publisherWithinAggregateConfidence_zero_divisor_guard_witness :
    PublisherWithinAggregateConfidenceCheck.run ⟨20⟩
      ⟨"publisher", "Crypto.BTC/USD", "Crypto", "k", .trading, .trading,
        1, 1, 1, 100, 110, 2, 0⟩ = true := by
  exact publisherWithinAggregateConfidence_zero_divisor_guard ⟨20⟩
    ⟨"publisher", "Crypto.BTC/USD", "Crypto", "k", .trading, .trading,
      1, 1, 1, 100, 110, 2, 0⟩ rfl

/-- C2: `PublisherStalledCheck.run()` cannot return at all once it reaches
the stall analysis: at the claim's own scenario (constant price 100,
market open, asset type `Crypto`, slot distance 0 below
`max_slot_distance = 25`, `stall_time_limit = 300`,
`abandoned_time_limit = 1800`, cache holding the first cycle's update and
the second cycle arriving 60 s later) the call
`self.__detector.analyze_updates(list(updates), cur_update)`
(publisher.py line 322) passes two positional arguments to
`StallDetector.analyze_updates(self, updates)` (stall_detection.py line 81)
and raises `TypeError`, modelled as `none`. -/
theorem publisherStalledCheck_run_raises :
    PublisherStalledCheck.run ⟨300, 1800, 25, 1/10000, 10⟩
      ⟨"publisher", "Crypto.BTC/USD", "Crypto", "k", .trading, .trading,
        1, 1, 1, 100, 100, 2, 1⟩
      true [⟨0, 100⟩] 60 = none := by
  decide

/-- C8 counterexample: a trading state with the market open and NO
cross-chain record makes `PriceFeedCrossChainOnlineCheck.run()` return
FALSE (the code comment reads "Price should exist, it fails otherwise"),
not true as the claim states. -/
theorem priceFeedCrossChainOnline_missing_record_cex :
    PriceFeedCrossChainOnlineCheck.run ⟨60⟩
      ⟨"Crypto.BTC/USD", "Crypto", "k", .trading, 0, 0, 1, 1, none, none, none⟩
      true = false := by
  decide

/-- C8 (amended): for a trading state with the market open,
`PriceFeedCrossChainOnlineCheck.run()` returns FALSE when the state has no
cross-chain record; it returns true when the record's `publish_time` is
zero; and when a record with nonzero `publish_time` is present it fails
exactly when `snapshot_time - publish_time ≥ max_staleness`. -/
theorem priceFeedCrossChainOnline_run_char
    (cfg : PriceFeedCrossChainOnlineCheckConfig) (st : PriceFeedState)
    (hs : st.status = PythPriceStatus.trading) :
    (st.crosschain_price = none →
      PriceFeedCrossChainOnlineCheck.run cfg st true = false) ∧
    (∀ cc, st.crosschain_price = some cc → cc.publish_time = 0 →
      PriceFeedCrossChainOnlineCheck.run cfg st true = true) ∧
    (∀ cc, st.crosschain_price = some cc → cc.publish_time ≠ 0 →
      (PriceFeedCrossChainOnlineCheck.run cfg st true = false ↔
        cfg.max_staleness ≤ cc.snapshot_time - cc.publish_time)) := by
  unfold PriceFeedCrossChainOnlineCheck.run
  refine ⟨fun hn => ?_, fun cc hc hz => ?_, fun cc hc hz => ?_⟩
  · simp [hs, hn]
  · simp [hs, hc, hz]
  · rw [hs]
    simp only [hc]
    split_ifs with h1 h2 <;> simp_all <;> omega

/-- C8 witness: with `max_staleness = 60` and a record published at time 100
snapshotted at 160 (staleness exactly 60) the check fails; published at 100
snapshotted at 159 it passes; and a zero publish time skips. -/
theorem priceFeedCrossChainOnline_run_char_witness :
    PriceFeedCrossChainOnlineCheck.run ⟨60⟩
      ⟨"Crypto.BTC/USD", "Crypto", "k", .trading, 0, 0, 1, 1, none, none,
        some ⟨100, 1, 100, 160⟩⟩ true = false ∧
    PriceFeedCrossChainOnlineCheck.run ⟨60⟩
      ⟨"Crypto.BTC/USD", "Crypto", "k", .trading, 0, 0, 1, 1, none, none,
        some ⟨100, 1, 0, 160⟩⟩ true = true := by
  constructor
  · exact ((priceFeedCrossChainOnline_run_char ⟨60⟩
      ⟨"Crypto.BTC/USD", "Crypto", "k", .trading, 0, 0, 1, 1, none, none,
        some ⟨100, 1, 100, 160⟩⟩ rfl).2.2 ⟨100, 1, 100, 160⟩ rfl
      (by decide)).mpr (by decide)
  · exact (priceFeedCrossChainOnline_run_char ⟨60⟩
      ⟨"Crypto.BTC/USD", "Crypto", "k", .trading, 0, 0, 1, 1, none, none,
        some ⟨100, 1, 0, 160⟩⟩ rfl).2.1 ⟨100, 1, 0, 160⟩ rfl rfl

/-- C4: when the exact-stall branch does not trigger (at least two updates,
gap above `stall_time_limit`, two most recent prices unequal),
`analyze_updates` returns no stall if the median base price is zero or the
window holds fewer than `min_noise_samples` updates, and otherwise reports
a noisy stall with `confidence = 1 - max_relative_deviation /
noise_threshold` exactly when `max_relative_deviation ≤ noise_threshold`. -/
theorem stallDetector_noisy_char (d : StallDetector) (updates : List PriceUpdate)
    (u0 u1 : PriceUpdate) (h : lastTwo updates = some (u0, u1))
    (hgap : d.stall_time_limit < ((u1.timestamp - u0.timestamp : Int) : Rat))
    (hne : u1.price ≠ u0.price) :
    (window_base_price updates = 0 →
      d.analyze_updates updates = StallDetectionResult.no_stall) ∧
    (updates.length < d.min_noise_samples →
      d.analyze_updates updates = StallDetectionResult.no_stall) ∧
    (window_base_price updates ≠ 0 → d.min_noise_samples ≤ updates.length →
      (d.analyze_updates updates =
        { is_stalled := true
          stall_type := some "noisy"
          base_price := some (window_base_price updates)
          noise_magnitude :=
            some (window_max_relative_deviation updates * window_base_price updates)
          duration := ((u1.timestamp - u0.timestamp : Int) : Rat)
          confidence :=
            1 - window_max_relative_deviation updates / d.noise_threshold } ↔
        window_max_relative_deviation updates ≤ d.noise_threshold)) := by
  refine ⟨fun hb => ?_, fun hlen => ?_, fun hb hlen => ?_⟩ <;>
    simp only [StallDetector.analyze_updates, h] <;>
    rw [if_neg (not_le.mpr hgap), if_neg hne]
  · rw [if_pos hb]
  · by_cases hb : window_base_price updates = 0
    · rw [if_pos hb]
    · rw [if_neg hb, if_pos hlen]
  · rw [if_neg hb, if_neg (not_lt.mpr hlen)]
    by_cases hm : window_max_relative_deviation updates ≤ d.noise_threshold
    · rw [if_pos hm]
      simp [hm]
    · rw [if_neg hm]
      simp [StallDetectionResult.mk.injEq, hm]

/-- C4 witness: three samples `1000000, 1000001, 999999` with the last two
6 s apart, `stall_time_limit = 5`, `min_noise_samples = 3`,
`noise_threshold = 1e-4`: base price `1000000`, maximal relative deviation
`1e-6 ≤ 1e-4`, so a noisy stall with confidence `1 - 1e-6/1e-4 = 99/100`
and noise magnitude `1`. -/
theorem stallDetector_noisy_char_witness :
    (StallDetector.mk 5 (1/10000) 3).analyze_updates
      [⟨0, 1000000⟩, ⟨3, 1000001⟩, ⟨9, 999999⟩] =
      ⟨true, some "noisy", some 1000000, some 1, 6, 99/100⟩ := by
  have hbase : window_base_price [⟨0, 1000000⟩, ⟨3, 1000001⟩, ⟨9, 999999⟩] =
      1000000 := by
    norm_num [window_base_price, np_median, List.insertionSort, List.orderedInsert]
  have hdev : window_max_relative_deviation
      [⟨0, 1000000⟩, ⟨3, 1000001⟩, ⟨9, 999999⟩] = 1/1000000 := by
    simp only [window_max_relative_deviation, hbase]
    norm_num [np_max, max_def]
  have h3 := (stallDetector_noisy_char (StallDetector.mk 5 (1/10000) 3)
    [⟨0, 1000000⟩, ⟨3, 1000001⟩, ⟨9, 999999⟩]
    ⟨3, 1000001⟩ ⟨9, 999999⟩ rfl (by norm_num)
    (by norm_num)).2.2 (by rw [hbase]; norm_num) (by norm_num)
  rw [h3.mpr (by rw [hdev]; norm_num)]
  rw [hbase, hdev]
  norm_num

/-- The `resolved` flag of `process_zenduty_events`, propositionally:
the previous window existed with at most `resolution_threshold` failures,
or an alert was sent and the current window has at most
`resolution_threshold` and fewer than `alert_threshold` failures. -/
theorem zd_resolved_iff (cfg : CheckThresholds) (info : AlertInfo) :
    zd_resolved cfg info = true ↔
      ((∃ n, info.last_window_failures = some n ∧ n ≤ cfg.resolution_threshold) ∨
       (info.sent = true ∧ info.failures ≤ cfg.resolution_threshold ∧
        info.failures < cfg.alert_threshold)) := by
  unfold zd_resolved last_window_resolved current_window_resolved
  cases h : info.last_window_failures <;> simp [h, and_assoc]

/-- The raise guard of `process_zenduty_events`, propositionally:
`failures ≥ alert_threshold` or a previous alert is still unresolved, and
either no alert was ever sent or more than five minutes have passed since
the last one and the current minute is zero. -/
theorem zd_should_raise_iff (cfg : CheckThresholds) (info : AlertInfo) (t : Int) :
    zd_should_raise cfg info t = true ↔
      ((cfg.alert_threshold ≤ info.failures ∨ info.sent = true) ∧
       (info.last_alert = none ∨
        ∃ la, info.last_alert = some la ∧ 300 < t - la ∧ zd_minute t = 0)) := by
  unfold zd_should_raise
  cases h : info.last_alert <;> simp [h]

/-- C6 counterexample: in the resolution pass, (i) a record with
`last_window_failures = 10 > resolution_threshold = 3` but `sent = true` and
`failures = 0` IS resolved (and removed on a 200 delivery), because the code
also resolves on `sent and failures <= resolution_threshold and failures <
alert_threshold`; and (ii) a record with `failures = 7 ≥ alert_threshold =
5` is NOT raised when its `last_alert` is 60 s old (re-alert cadence), so
resolution is not equivalent to `last_window_failures ≤
resolution_threshold`, and `failures ≥ alert_threshold` alone does not
raise. -/
theorem zd_resolution_cex :
    (zd_entry ⟨5, 3⟩ 0 (some 200)
      ⟨"PriceFeedOfflineCheck", 0, 0, some 10, true, none⟩).removed = true ∧
    ¬ (10 ≤ 3) ∧
    (zd_entry ⟨5, 3⟩ 120 (some 200)
      ⟨"PriceFeedOfflineCheck", 0, 7, none, false, some 60⟩).raised = false ∧
    5 ≤ 7 := by
  refine ⟨by decide, by decide, by decide, by decide⟩

/-- C6 (amended): in the alert-resolution pass an open record (after the
idempotent window-rollover step) enters the resolution branch iff
`last_window_failures` exists and is `≤ resolution_threshold`, OR the alert
was sent and the current `failures` is `≤ resolution_threshold` and
`< alert_threshold`; otherwise it is raised (`sent := true`, `last_alert`
updated) iff `failures ≥ alert_threshold` or a sent alert is still open,
AND the re-alert cadence allows it (`last_alert` unset, or more than five
minutes old with the current minute equal to 0).  Defaults are
`alert_threshold = 5`, `resolution_threshold = 3`. -/
theorem zd_entry_decision_char (cfg : CheckThresholds) (d : Option Nat) (t : Int)
    (info : AlertInfo) :
    (((zd_entry cfg t d info).removed = true ∨
      (zd_entry cfg t d info).resolution_send = true) ↔
      ((∃ n, (check_zd_alert_status info t).last_window_failures = some n ∧
          n ≤ cfg.resolution_threshold) ∨
       ((check_zd_alert_status info t).sent = true ∧
        (check_zd_alert_status info t).failures ≤ cfg.resolution_threshold ∧
        (check_zd_alert_status info t).failures < cfg.alert_threshold))) ∧
    ((zd_entry cfg t d info).raised = true ↔
      (¬ (zd_resolved cfg (check_zd_alert_status info t) = true) ∧
       ((cfg.alert_threshold ≤ (check_zd_alert_status info t).failures ∨
         (check_zd_alert_status info t).sent = true) ∧
        ((check_zd_alert_status info t).last_alert = none ∨
         ∃ la, (check_zd_alert_status info t).last_alert = some la ∧
           300 < t - la ∧ zd_minute t = 0)))) ∧
    ((zd_entry cfg t d info).raised = true →
      (zd_entry cfg t d info).info.sent = true ∧
      (zd_entry cfg t d info).info.last_alert = some t) := by
  rw [← zd_should_raise_iff cfg (check_zd_alert_status info t) t,
    ← zd_resolved_iff cfg (check_zd_alert_status info t)]
  simp only [zd_entry]
  by_cases hr : zd_resolved cfg (check_zd_alert_status info t) = true
  · rw [if_pos hr]
    by_cases hs : (check_zd_alert_status info t).sent = true
    · rw [if_pos hs]
      cases d with
      | none => simp [hr]
      | some s =>
        by_cases hok : 200 ≤ s ∧ s < 300 <;> simp [hr, hok]
    · rw [if_neg hs]
      simp [hr]
  · rw [if_neg hr]
    by_cases hsr : zd_should_raise cfg (check_zd_alert_status info t) t = true
    · rw [if_pos hsr]
      simp [hr, hsr]
    · rw [if_neg hsr]
      simp [hr, hsr]

/-- Helper: a key absent from every entry is not found. -/
theorem alist_get_eq_none {α : Type} (l : List (String × α)) (id : String)
    (h : ∀ p ∈ l, p.1 ≠ id) : alist_get l id = none := by
  induction l with
  | nil => rfl
  | cons p rest ih =>
    simp only [alist_get]
    rw [if_neg (h p (by simp))]
    exact ih fun q hq => h q (by simp [hq])

/-- Helper: a key that is not found is absent from every entry. -/
theorem alist_get_none_forall {α : Type} (l : List (String × α)) (id : String)
    (h : alist_get l id = none) : ∀ p ∈ l, p.1 ≠ id := by
  induction l with
  | nil => simp
  | cons p rest ih =>
    intro q hq
    simp only [alist_get] at h
    by_cases hp : p.1 = id
    · rw [if_pos hp] at h
      exact absurd h (by simp)
    · rw [if_neg hp] at h
      rcases List.mem_cons.mp hq with rfl | hq'
      · exact hp
      · exact ih h q hq'

/-- C7: in the resolution pass, for a record whose (rolled) state is
resolved: a `sent = true` record is deleted exactly on a successful
resolution delivery (HTTP status in `[200, 300)`), and its pending delayed
events for enabled hysteresis channels are deleted with it; on a failed
delivery the record remains in the map (so resolution is retried next
cycle) even though the resolution send was attempted; a `sent = false`
record is deleted without any resolution send; and processing a cycle in
which the identifier's record is already absent neither recreates the
record nor sends a resolution event for it. -/
theorem zd_resolution_removal_char
    (cfg_of : String → CheckThresholds) (enabled : List String) (t : Int)
    (delivery : String → Option Nat) (id : String) (info : AlertInfo)
    (events : List (String × String))
    (hres : zd_resolved (cfg_of info.type) (check_zd_alert_status info t) = true) :
    ((check_zd_alert_status info t).sent = true →
      ((∃ s, delivery id = some s ∧ 200 ≤ s ∧ s < 300) →
        alist_get (process_zenduty_events cfg_of enabled t delivery
          [(id, info)] events).alerts id = none ∧
        (∀ et, et ∈ hysteresis_event_types → et ∈ enabled →
          (et, id) ∉ (process_zenduty_events cfg_of enabled t delivery
            [(id, info)] events).events)) ∧
      (¬ (∃ s, delivery id = some s ∧ 200 ≤ s ∧ s < 300) →
        alist_get (process_zenduty_events cfg_of enabled t delivery
          [(id, info)] events).alerts id = some (check_zd_alert_status info t) ∧
        id ∈ (process_zenduty_events cfg_of enabled t delivery
          [(id, info)] events).resolution_sends)) ∧
    ((check_zd_alert_status info t).sent = false →
      alist_get (process_zenduty_events cfg_of enabled t delivery
        [(id, info)] events).alerts id = none ∧
      id ∉ (process_zenduty_events cfg_of enabled t delivery
        [(id, info)] events).resolution_sends) ∧
    (∀ alerts : List (String × AlertInfo), alist_get alerts id = none →
      alist_get (process_zenduty_events cfg_of enabled t delivery
        alerts events).alerts id = none ∧
      id ∉ (process_zenduty_events cfg_of enabled t delivery
        alerts events).resolution_sends) := by
  refine ⟨fun hs => ⟨fun hok => ?_, fun hbad => ?_⟩, fun hs => ?_, fun alerts hnone => ?_⟩
  · obtain ⟨s, hd, hs1, hs2⟩ := hok
    have hE : zd_entry (cfg_of info.type) t (delivery id) info =
        ⟨check_zd_alert_status info t, true, true, false⟩ := by
      simp [zd_entry, hres, hs, hd, hs1, hs2]
    constructor
    · simp [process_zenduty_events, hE, alist_get]
    · intro et h1 h2 hmem
      simp only [process_zenduty_events, List.mem_filter] at hmem
      have := hmem.2
      simp [hE, h1, h2] at this
  · have hE : zd_entry (cfg_of info.type) t (delivery id) info =
        ⟨check_zd_alert_status info t, false, true, false⟩ := by
      rcases hd : delivery id with _ | s
      · simp [zd_entry, hres, hs, hd]
      · have : ¬ (200 ≤ s ∧ s < 300) := fun hc => hbad ⟨s, hd, hc⟩
        simp [zd_entry, hres, hs, hd, this]
    simp [process_zenduty_events, hE, alist_get]
  · have hE : zd_entry (cfg_of info.type) t (delivery id) info =
        ⟨check_zd_alert_status info t, true, false, false⟩ := by
      simp [zd_entry, hres, hs]
    simp [process_zenduty_events, hE, alist_get]
  · have hkeys := alist_get_none_forall alerts id hnone
    constructor
    · apply alist_get_eq_none
      intro p hp
      simp only [process_zenduty_events, List.mem_filter, List.mem_map] at hp
      obtain ⟨⟨q, hq, rfl⟩, -⟩ := hp
      obtain ⟨r, hr, rfl⟩ := hq
      exact hkeys r hr
    · intro hmem
      simp only [process_zenduty_events, List.mem_map, List.mem_filter] at hmem
      obtain ⟨q, ⟨hq, -⟩, hq1⟩ := hmem
      obtain ⟨r, hr, rfl⟩ := hq
      exact hkeys r hr hq1

/-- C7 witness: a resolved, sent record with a 204 resolution delivery is
removed together with its pending Zenduty delayed event; with a 503
delivery it stays and the send was attempted; an unsent resolved record is
removed silently; and a pass over an empty map leaves the identifier
absent with no sends. -/
theorem zd_resolution_removal_char_witness :
    (alist_get (process_zenduty_events (fun _ => ⟨5, 3⟩) ["ZendutyEvent"] 0
      (fun _ => some 204)
      [("PriceFeedOfflineCheck-X", ⟨"PriceFeedOfflineCheck", 0, 0, some 1, true, none⟩)]
      [("ZendutyEvent", "PriceFeedOfflineCheck-X")]).alerts
      "PriceFeedOfflineCheck-X" = none ∧
     ("ZendutyEvent", "PriceFeedOfflineCheck-X") ∉
       (process_zenduty_events (fun _ => ⟨5, 3⟩) ["ZendutyEvent"] 0
        (fun _ => some 204)
        [("PriceFeedOfflineCheck-X", ⟨"PriceFeedOfflineCheck", 0, 0, some 1, true, none⟩)]
        [("ZendutyEvent", "PriceFeedOfflineCheck-X")]).events) ∧
    (alist_get (process_zenduty_events (fun _ => ⟨5, 3⟩) ["ZendutyEvent"] 0
      (fun _ => some 503)
      [("PriceFeedOfflineCheck-X", ⟨"PriceFeedOfflineCheck", 0, 0, some 1, true, none⟩)]
      []).alerts "PriceFeedOfflineCheck-X" =
        some ⟨"PriceFeedOfflineCheck", 0, 0, some 1, true, none⟩ ∧
     "PriceFeedOfflineCheck-X" ∈
       (process_zenduty_events (fun _ => ⟨5, 3⟩) ["ZendutyEvent"] 0
        (fun _ => some 503)
        [("PriceFeedOfflineCheck-X", ⟨"PriceFeedOfflineCheck", 0, 0, some 1, true, none⟩)]
        []).resolution_sends) ∧
    (alist_get (process_zenduty_events (fun _ => ⟨5, 3⟩) ["ZendutyEvent"] 0
      (fun _ => some 204) [] []).alerts "PriceFeedOfflineCheck-X" = none ∧
     "PriceFeedOfflineCheck-X" ∉
       (process_zenduty_events (fun _ => ⟨5, 3⟩) ["ZendutyEvent"] 0
        (fun _ => some 204) [] []).resolution_sends) := by
  refine ⟨?_, ?_, ?_⟩
  · have h := (zd_resolution_removal_char (fun _ => ⟨5, 3⟩) ["ZendutyEvent"] 0
      (fun _ => some 204) "PriceFeedOfflineCheck-X"
      ⟨"PriceFeedOfflineCheck", 0, 0, some 1, true, none⟩
      [("ZendutyEvent", "PriceFeedOfflineCheck-X")] (by decide)).1 (by decide)
    have h2 := h.1 ⟨204, rfl, by omega, by omega⟩
    exact ⟨h2.1, h2.2 "ZendutyEvent" (by decide) (by decide)⟩
  · have h := (zd_resolution_removal_char (fun _ => ⟨5, 3⟩) ["ZendutyEvent"] 0
      (fun _ => some 503) "PriceFeedOfflineCheck-X"
      ⟨"PriceFeedOfflineCheck", 0, 0, some 1, true, none⟩ [] (by decide)).1 (by decide)
    have h2 := h.2 (by rintro ⟨s, hs, h1, h2⟩; cases hs; omega)
    exact h2
  · exact (zd_resolution_removal_char (fun _ => ⟨5, 3⟩) ["ZendutyEvent"] 0
      (fun _ => some 204) "PriceFeedOfflineCheck-X"
      ⟨"PriceFeedOfflineCheck", 0, 0, some 1, true, none⟩ [] (by decide)).2.2 [] rfl

/-- Helper: full characterisation of the retry loop when entered with the
invariant `retries = k` (the loop increments both together).  Attempt count
lies in `(k, 30]`, every attempt before the last got a 429, the returned
status is the last attempt's, a 429 is returned only on exhaustion at 30
attempts, `exhausted` is set exactly when the result is a 429, and the
sleeps are `min 30 (2 ^ attempt)` for the intermediate attempts. -/
theorem zd_send_loop_spec (responses : Nat → Nat) :
    ∀ n k, k + n = 30 → 1 ≤ n →
    ∃ res : ZdSendResult, zd_send_loop responses 30 k k = some res ∧
      k + 1 ≤ res.attempts ∧ res.attempts ≤ 30 ∧
      (∀ j, k ≤ j → j + 1 < res.attempts → responses j = 429) ∧
      res.status = responses (res.attempts - 1) ∧
      (responses (res.attempts - 1) ≠ 429 ∨
        (res.attempts = 30 ∧ res.exhausted = true)) ∧
      (res.exhausted = true ↔ res.status = 429) ∧
      res.sleeps = (List.range (res.attempts - 1 - k)).map
        (fun i => min 30 (2 ^ (k + i + 1))) := by
  intro n
  induction n with
  | zero => intro k hk h1; exact absurd h1 (by omega)
  | succ m ih =>
    intro k hk _
    have hklt : k < 30 := by omega
    unfold zd_send_loop
    rw [if_pos hklt]
    by_cases h2xx : 200 ≤ responses k ∧ responses k < 300
    · rw [if_pos h2xx]
      refine ⟨⟨responses k, k + 1, [], false⟩, rfl, by dsimp only; omega,
        by dsimp only; omega, fun j hj hj2 => by dsimp only at hj2; omega,
        by simp, Or.inl ?_, by simp; omega, by simp⟩
      simp only [Nat.add_sub_cancel]
      omega
    · rw [if_neg h2xx]
      by_cases h429 : responses k = 429
      · rw [if_pos h429]
        by_cases hlast : k + 1 < 30
        · rw [if_pos hlast]
          obtain ⟨rest, hrest, ha1, ha2, hall, hst, hnon, hex, hsl⟩ :=
            ih (k + 1) (by omega) (by omega)
          rw [hrest]
          refine ⟨⟨rest.status, rest.attempts, min 30 (2 ^ (k + 1)) :: rest.sleeps,
            rest.exhausted⟩, rfl, by dsimp only; omega, by dsimp only; omega, ?_,
            hst, hnon, hex, ?_⟩
          · intro j hj hj2
            dsimp only at hj2
            rcases Nat.eq_or_lt_of_le hj with rfl | hj'
            · exact h429
            · exact hall j (by omega) hj2
          · show min 30 (2 ^ (k + 1)) :: rest.sleeps = _
            rw [hsl]
            have he : rest.attempts - 1 - k = (rest.attempts - 1 - (k + 1)) + 1 := by
              omega
            rw [he, List.range_succ_eq_map, List.map_cons, List.map_map]
            refine congrArg₂ _ (by simp) ?_
            apply List.map_congr_left
            intro i _
            simp only [Function.comp_apply]
            have : k + (i + 1) + 1 = k + 1 + i + 1 := by omega
            rw [this]
        · rw [if_neg hlast]
          refine ⟨⟨responses k, k + 1, [], true⟩, rfl, Nat.le_refl _,
            by dsimp only; omega, fun j hj hj2 => by dsimp only at hj2; omega,
            by simp, Or.inr ⟨by dsimp only; omega, rfl⟩, by simp [h429], by simp⟩
      · rw [if_neg h429]
        refine ⟨⟨responses k, k + 1, [], false⟩, rfl, Nat.le_refl _,
          by dsimp only; omega, fun j hj hj2 => by dsimp only at hj2; omega,
          by simp, Or.inl (by simpa using h429), by simp [h429], by simp⟩

/-- C9: `send_zenduty_alert` always returns a response (never raises):
it makes at most 30 attempts, every attempt before the last received HTTP
429 (so only 429 causes a retry and any 2xx or other status returns
immediately), the returned status is that of the last attempt, a 429 result
occurs only on exhaustion after the full 30 attempts (`exhausted` is set
exactly then, as a logged failure returning the last response), and the
sleep before re-attempt number `i + 2` is `min 30 (2 ^ (i + 1))` seconds. -/
theorem send_zenduty_alert_char (responses : Nat → Nat) :
    ∃ res : ZdSendResult, send_zenduty_alert responses = some res ∧
      1 ≤ res.attempts ∧ res.attempts ≤ 30 ∧
      (∀ j, j + 1 < res.attempts → responses j = 429) ∧
      res.status = responses (res.attempts - 1) ∧
      (responses (res.attempts - 1) ≠ 429 ∨
        (res.attempts = 30 ∧ res.exhausted = true)) ∧
      (res.exhausted = true ↔ res.status = 429) ∧
      res.sleeps = (List.range (res.attempts - 1)).map
        (fun i => min 30 (2 ^ (i + 1))) := by
  obtain ⟨res, h, h1, h2, h3, h4, h5, h6, h7⟩ :=
    zd_send_loop_spec responses 30 0 rfl (by omega)
  exact ⟨res, h, h1, h2, fun j hj => h3 j (Nat.zero_le j) hj, h4, h5, h6,
    by simpa using h7⟩

end PythObserver
